import Mathlib

/-!
Verification development for the ipywidgets excerpt:
  src/ipywidgets/__init__.py
  src/ipywidgets/widgets/widget_output.py

The Python code is glue over a host notebook kernel.  We embed it as pure
state transformers over an explicit widget state, with host interactions
recorded as an effect trace.  Fallible Python code (attribute access on
None, lookup of an unbound name) is embedded with Except.
-/

/-- A Python value appearing inside an output record: a string, or an opaque
host object identified by a tag (display data and metadata are opaque to
this module, they come from the host display formatter). -/
inductive PyVal where
  | str (s : String)
  | obj (id : Nat)
deriving Repr, DecidableEq

/-- A Python dict with string keys, as an ordered association list, so that
the exact key shape of an output record is visible. -/
abbrev PyDict : Type := List (String × PyVal)

/-- Python errors raised by the embedded code. -/
inductive PyError where
  | attributeError (attr : String)
  | nameError (n : String)
deriving Repr, DecidableEq

/-- The (etype, evalue, traceback) triple passed to __exit__; the traceback
is an opaque host object. -/
structure ExcInfo where
  etype : String
  evalue : String
  tb : Nat
deriving Repr, DecidableEq

/-- Host interactions performed by the widget code, recorded in order.
callFunc marks the moment the function wrapped by Output.capture is
invoked, and records the widget outputs buffer at that moment. -/
inductive Effect where
  | flushStdout
  | flushStderr
  | showtraceback (info : ExcInfo) (tb_offset : Nat)
  | hostClearOutput
  | callFunc (outputsAtCall : List PyDict)
deriving Repr, DecidableEq

/-- The comm-open handler registered for a comm target.  The only handler
this module registers is the class-level Widget.handle_comm_opened. -/
inductive Handler where
  | widget_handle_comm_opened
  | other (id : Nat)
deriving Repr, DecidableEq

/-- The comm manager of a kernel: a registry of target names to handlers. -/
structure CommManager where
  targets : List (String × Handler)
deriving Repr, DecidableEq

/-- The header dict nested inside a parent message header. -/
structure MsgHeader where
  msg_id : String
deriving Repr, DecidableEq

/-- The kernel parent header: the dict stored in kernel parent header state,
whose header entry carries the message id. -/
structure ParentHeader where
  header : MsgHeader
deriving Repr, DecidableEq

/-- A host kernel object.  parent_header is none when the kernel lacks the
parent header attribute (the hasattr check in Output enter). -/
structure Kernel where
  comm_manager : CommManager
  parent_header : Option ParentHeader
deriving Repr, DecidableEq

/-- A host interpreter object (the ip returned by get_ipython).  kernel is
none when the object lacks the kernel attribute (the hasattr checks). -/
structure Shell where
  kernel : Option Kernel
deriving Repr, DecidableEq

/-- The synchronized traits of the Output widget that this module reads and
writes: the outputs tuple and the msg_id string. -/
structure OutputState where
  outputs : List PyDict
  msg_id : String
deriving Repr, DecidableEq

namespace Output

/-- Output append_stream_output: appends one stream record, built with
exactly the keys output_type, name, text, by replacing the outputs tuple
with a longer one (self.outputs += (record,)). -/
def append_stream_output (s : OutputState) (text stream_name : String) :
    OutputState :=
  { s with
    outputs := s.outputs ++
      [[("output_type", PyVal.str "stream"),
        ("name", PyVal.str stream_name),
        ("text", PyVal.str text)]] }

/-- Output append_stdout: append text to the stdout stream. -/
def append_stdout (s : OutputState) (text : String) : OutputState :=
  append_stream_output s text "stdout"

/-- Output append_stderr: append text to the stderr stream. -/
def append_stderr (s : OutputState) (text : String) : OutputState :=
  append_stream_output s text "stderr"

/-- Output append_display_data: formats the display object with the host
display formatter (fmt, an opaque host collaborator passed as a parameter)
into a data and metadata pair and appends one display_data record. -/
def append_display_data {δ : Type} (fmt : δ → PyVal × PyVal)
    (s : OutputState) (display_object : δ) : OutputState :=
  let data := (fmt display_object).1
  let metadata := (fmt display_object).2
  { s with
    outputs := s.outputs ++
      [[("output_type", PyVal.str "display_data"),
        ("data", data),
        ("metadata", metadata)]] }

/-- Output _flush: flush the stdout and stderr buffers (pure host effects). -/
def flushEffects : List Effect :=
  [Effect.flushStdout, Effect.flushStderr]

/-- Output __enter__: flushes, then, when get_ipython() returns a shell that
has a kernel that has a parent header, sets msg_id from that header. -/
def enter (ip : Option Shell) (s : OutputState) : OutputState × List Effect :=
  match ip with
  | none => (s, flushEffects)
  | some shell =>
    match shell.kernel with
    | none => (s, flushEffects)
    | some k =>
      match k.parent_header with
      | none => (s, flushEffects)
      | some ph =>
        ({ s with msg_id := ph.header.msg_id }, flushEffects)

/-- Output __exit__: when an exception triple is given, calls
ip.showtraceback with tb_offset 0; then flushes, resets msg_id and returns
True.  When an exception is given and get_ipython() returned None, the
showtraceback attribute access on None raises an AttributeError. -/
def exitCM (ip : Option Shell) (exc : Option ExcInfo) (s : OutputState) :
    Except PyError (OutputState × List Effect × Bool) :=
  match exc with
  | none =>
    Except.ok ({ s with msg_id := "" }, flushEffects, true)
  | some info =>
    match ip with
    | none => Except.error (PyError.attributeError "showtraceback")
    | some _ =>
      Except.ok ({ s with msg_id := "" },
        Effect.showtraceback info 0 :: flushEffects, true)

/-- The result of running a Python callable body once: a normal value or a
raised exception, the widget state it leaves, and the host effects it
performed. -/
structure FuncRun (ρ : Type) where
  res : Except ExcInfo ρ
  state : OutputState
  effs : List Effect

/-- The with-statement over the Output widget (with self: body).  Runs
__enter__, the body, then __exit__ with the exception the body raised, if
any.  Since __exit__ returns True, a raised exception is suppressed and the
with-statement yields no value for it (none).  The error case surfaces only
when __exit__ itself raises (no host shell while handling an exception). -/
def withSelf {ρ : Type} (ip : Option Shell) (s : OutputState)
    (body : OutputState → FuncRun ρ) :
    Except PyError (Option ρ × OutputState × List Effect) :=
  match enter ip s with
  | (s1, enterEffs) =>
    let fr := body s1
    match fr.res with
    | Except.ok v =>
      match exitCM ip none fr.state with
      | Except.ok (s2, exitEffs, _) =>
        Except.ok (some v, s2, enterEffs ++ fr.effs ++ exitEffs)
      | Except.error e => Except.error e
    | Except.error info =>
      match exitCM ip (some info) fr.state with
      | Except.ok (s2, exitEffs, suppressed) =>
        if suppressed then
          Except.ok (none, s2, enterEffs ++ fr.effs ++ exitEffs)
        else Except.error (PyError.attributeError "unreachable")
      | Except.error e => Except.error e

/-- Modelled from the spec: the host clear-output facility
(IPython.display.clear_output, an external collaborator not in the
excerpt).  Per the spec, calling the clear operation inside the capture
scope empties prior buffered records. -/
def host_clear_output (s : OutputState) : FuncRun Unit :=
  { res := Except.ok ()
    state := { s with outputs := [] }
    effs := [Effect.hostClearOutput] }

/-- Output clear_output: with self: clear_output(). -/
def clear_output (ip : Option Shell) (s : OutputState) :
    Except PyError (Option Unit × OutputState × List Effect) :=
  withSelf ip s host_clear_output

/-- The inner wrapper produced by the Output.capture decorator: when the
clear flag is set (its Python default is True) it first calls
self.clear_output(), then runs the wrapped function inside with self,
returning its value, or None when the function raised (the exception is
suppressed by __exit__).  The callFunc marker in the trace records the
invocation of the wrapped function and the outputs buffer at that moment. -/
def capture_inner {ρ : Type} (ip : Option Shell) (clear : Bool)
    (func : OutputState → FuncRun ρ) (s : OutputState) :
    Except PyError (Option ρ × OutputState × List Effect) :=
  let cleared :=
    if clear then
      match clear_output ip s with
      | Except.ok (_, s0, clearEffs) => Except.ok (s0, clearEffs)
      | Except.error e => Except.error e
    else Except.ok (s, ([] : List Effect))
  match cleared with
  | Except.error e => Except.error e
  | Except.ok (s0, clearEffs) =>
    match withSelf ip s0
        (fun st =>
          let fr := func st
          { fr with effs := Effect.callFunc st.outputs :: fr.effs }) with
    | Except.ok (v, s2, scopeEffs) =>
      Except.ok (v, s2, clearEffs ++ scopeEffs)
    | Except.error e => Except.error e

end Output

/-- The names bound at module level in src/ipywidgets/__init__.py when
find_static_assets runs: the imports and the module-level defs.
Modelled from the spec: the star import from .widgets (whose __init__ is
not in the excerpt) is represented by the Widget name it is known to
provide; per the spec, the name path is unbound in the module
(the function references an undefined name, a latent bug). -/
def module_global_names : List String :=
  ["os", "get_ipython", "Widget", "find_static_assets",
   "load_ipython_extension", "register_comm_target", "handle_kernel",
   "_handle_ipython", "__file__", "__name__", "__doc__"]

/-- Python name resolution inside a function body of the module: a name is
defined when it is a local, a module global, or a builtin. -/
def name_defined (locals_ : List String) (n : String) : Bool :=
  locals_.contains n || module_global_names.contains n ||
    ["hasattr", "None", "True", "False", "print"].contains n

/-- find_static_assets: binds the local here to os.path.abspath(__file__),
then returns os.path.join(os.path.dirname(path), "static") where the name
path has no binding, so evaluating it raises a NameError.  The local here
is bound but never read by the return expression, as in the source; the
joined path is never produced, so the ok branch carries no value of
interest. -/
def find_static_assets (file : String) : Except PyError String :=
  let here := file
  let locals_ := ["here"]
  if name_defined locals_ "path" then
    Except.ok (here ++ "/static")
  else
    Except.error (PyError.nameError "path")

/-- The comm manager after register_target with the ipython.widget target
bound to Widget.handle_comm_opened. -/
def registered (cm : CommManager) : CommManager :=
  { targets :=
      cm.targets ++ [("ipython.widget", Handler.widget_handle_comm_opened)] }

/-- register_comm_target: when the kernel argument is None, evaluates
get_ipython().kernel into a local ip that is never used again; the final
line still dereferences the None-valued kernel parameter, raising an
AttributeError (on the kernel attribute of None when there is no shell or
the shell lacks a kernel, and otherwise on the comm_manager attribute of
the None kernel parameter).  With a kernel argument, registers the
ipython.widget target on its comm manager and returns the updated
kernel. -/
def register_comm_target (genv : Option Shell) (kernel : Option Kernel) :
    Except PyError Kernel :=
  match kernel with
  | some k => Except.ok { k with comm_manager := registered k.comm_manager }
  | none =>
    match genv with
    | none => Except.error (PyError.attributeError "kernel")
    | some shell =>
      match shell.kernel with
      | none => Except.error (PyError.attributeError "kernel")
      | some _ => Except.error (PyError.attributeError "comm_manager")

/-- load_ipython_extension: returns without doing anything when ip lacks
the kernel attribute, otherwise calls register_comm_target(ip.kernel).
The result carries the registered kernel when registration happened. -/
def load_ipython_extension (genv : Option Shell) (ip : Shell) :
    Except PyError (Option Kernel) :=
  match ip.kernel with
  | none => Except.ok none
  | some k => (register_comm_target genv (some k)).map some

/-- The message id reached through the optional chain shell, kernel, parent
header: some only when every link is present. -/
def kernel_parent_msg_id (ip : Option Shell) : Option String :=
  match ip with
  | none => none
  | some shell =>
    match shell.kernel with
    | none => none
    | some k =>
      match k.parent_header with
      | none => none
      | some ph => some ph.header.msg_id

/-- The widget state right after __enter__ under host ip, starting from s:
outputs unchanged, msg_id tagged from the parent header when present. -/
def enteredFrom (ip : Option Shell) (s : OutputState) : OutputState :=
  { s with msg_id := (kernel_parent_msg_id ip).getD s.msg_id }

theorem enteredFrom_outputs (ip : Option Shell) (s : OutputState) :
    (enteredFrom ip s).outputs = s.outputs := rfl

theorem enter_eq (ip : Option Shell) (s : OutputState) :
    Output.enter ip s = (enteredFrom ip s, Output.flushEffects) := by
  rcases ip with _ | ⟨_ | ⟨cm, _ | ph⟩⟩ <;> rfl

theorem withSelf_some_eq {ρ : Type} (shell : Shell) (s : OutputState)
    (body : OutputState → Output.FuncRun ρ) :
    Output.withSelf (some shell) s body =
      (let fr := body (enteredFrom (some shell) s)
       match fr.res with
       | Except.ok v =>
         Except.ok (some v, { fr.state with msg_id := "" },
           Output.flushEffects ++ fr.effs ++ Output.flushEffects)
       | Except.error info =>
         Except.ok (none, { fr.state with msg_id := "" },
           Output.flushEffects ++ fr.effs ++
             (Effect.showtraceback info 0 :: Output.flushEffects))) := by
  rw [Output.withSelf, enter_eq]
  cases h : (body (enteredFrom (some shell) s)).res <;>
    simp [h, Output.exitCM]

theorem clear_output_some_eq (shell : Shell) (s : OutputState) :
    Output.clear_output (some shell) s =
      Except.ok (some (), { outputs := [], msg_id := "" },
        Output.flushEffects ++ [Effect.hostClearOutput] ++ Output.flushEffects) := by
  rw [Output.clear_output, withSelf_some_eq]
  simp [Output.host_clear_output, enteredFrom]

theorem capture_inner_true_eq {ρ : Type} (shell : Shell)
    (func : OutputState → Output.FuncRun ρ) (s : OutputState) :
    Output.capture_inner (some shell) true func s =
      (let fr := func (enteredFrom (some shell) { outputs := [], msg_id := "" })
       match fr.res with
       | Except.ok v =>
         Except.ok (some v, { fr.state with msg_id := "" },
           (Output.flushEffects ++ [Effect.hostClearOutput] ++
               Output.flushEffects) ++
             (Output.flushEffects ++ (Effect.callFunc [] :: fr.effs) ++
               Output.flushEffects))
       | Except.error info =>
         Except.ok (none, { fr.state with msg_id := "" },
           (Output.flushEffects ++ [Effect.hostClearOutput] ++
               Output.flushEffects) ++
             (Output.flushEffects ++ (Effect.callFunc [] :: fr.effs) ++
               (Effect.showtraceback info 0 :: Output.flushEffects)))) := by
  simp only [Output.capture_inner, clear_output_some_eq, withSelf_some_eq]
  cases h : (func (enteredFrom (some shell) { outputs := [], msg_id := "" })).res <;>
    simp [h, enteredFrom_outputs]

theorem capture_inner_false_eq {ρ : Type} (shell : Shell)
    (func : OutputState → Output.FuncRun ρ) (s : OutputState) :
    Output.capture_inner (some shell) false func s =
      (let fr := func (enteredFrom (some shell) s)
       match fr.res with
       | Except.ok v =>
         Except.ok (some v, { fr.state with msg_id := "" },
           Output.flushEffects ++ (Effect.callFunc s.outputs :: fr.effs) ++
             Output.flushEffects)
       | Except.error info =>
         Except.ok (none, { fr.state with msg_id := "" },
           Output.flushEffects ++ (Effect.callFunc s.outputs :: fr.effs) ++
             (Effect.showtraceback info 0 :: Output.flushEffects))) := by
  simp only [Output.capture_inner, withSelf_some_eq]
  cases h : (func (enteredFrom (some shell) s)).res <;>
    simp [h, enteredFrom_outputs]

/-- C1: for every exception triple raised inside the Output capture scope,
Output __exit__ passes it to the host traceback renderer exactly once
(the trace holds a single showtraceback event, with tb_offset 0), resets
msg_id, and returns True, so the exception is suppressed and does not
propagate out of the scope. -/
theorem output_exit_renders_traceback_once_and_suppresses
    (shell : Shell) (info : ExcInfo) (s : OutputState) :
    Output.exitCM (some shell) (some info) s =
      Except.ok ({ s with msg_id := "" },
        [Effect.showtraceback info 0, Effect.flushStdout, Effect.flushStderr],
        true) := rfl

/-- C2: append_stdout appends exactly one stream record with name stdout
and append_stderr exactly one with name stderr; the appended record has
exactly the three keys output_type, name, text. -/
theorem append_stream_records_exact_shape (s : OutputState) (text : String) :
    (Output.append_stdout s text).outputs =
      s.outputs ++
        [[("output_type", PyVal.str "stream"),
          ("name", PyVal.str "stdout"),
          ("text", PyVal.str text)]] ∧
    (Output.append_stderr s text).outputs =
      s.outputs ++
        [[("output_type", PyVal.str "stream"),
          ("name", PyVal.str "stderr"),
          ("text", PyVal.str text)]] :=
  ⟨rfl, rfl⟩

/-- C3: append_display_data formats the display object with the host
display formatter into a data and metadata pair and appends exactly one
display_data record carrying them. -/
theorem append_display_data_formats_and_appends_one_record
    {δ : Type} (fmt : δ → PyVal × PyVal) (s : OutputState) (d : δ) :
    (Output.append_display_data fmt s d).outputs =
      s.outputs ++
        [[("output_type", PyVal.str "display_data"),
          ("data", (fmt d).1),
          ("metadata", (fmt d).2)]] := rfl

/-- C4: each append operation (append_stdout, append_stderr,
append_display_data) yields an outputs value exactly one record longer of
which the previous value is a prefix, so existing records and their order
are preserved; the replacement is by value, the previous list is not
changed. -/
theorem append_ops_preserve_and_extend_outputs
    {δ : Type} (fmt : δ → PyVal × PyVal) (s : OutputState)
    (text : String) (d : δ) :
    ((Output.append_stdout s text).outputs.length = s.outputs.length + 1 ∧
      (Output.append_stdout s text).outputs.take s.outputs.length =
        s.outputs) ∧
    ((Output.append_stderr s text).outputs.length = s.outputs.length + 1 ∧
      (Output.append_stderr s text).outputs.take s.outputs.length =
        s.outputs) ∧
    ((Output.append_display_data fmt s d).outputs.length =
        s.outputs.length + 1 ∧
      (Output.append_display_data fmt s d).outputs.take s.outputs.length =
        s.outputs) := by
  refine ⟨⟨?_, ?_⟩, ⟨?_, ?_⟩, ⟨?_, ?_⟩⟩ <;>
    simp [Output.append_stdout, Output.append_stderr,
      Output.append_stream_output, Output.append_display_data,
      List.take_left]

/-- C6: every call to find_static_assets fails with a NameError on the
unbound name path; no call returns normally. -/
theorem find_static_assets_always_raises_name_error (file : String) :
    find_static_assets file = Except.error (PyError.nameError "path") := rfl

/-- C7: Output __enter__ always flushes stdout then stderr, leaves the
outputs buffer unchanged, and sets msg_id to the parent header message id
exactly when get_ipython() yields a shell with a kernel with a parent
header; otherwise msg_id keeps its previous value. -/
theorem output_enter_flushes_and_tags_msg_id
    (ip : Option Shell) (s : OutputState) :
    (Output.enter ip s).2 = [Effect.flushStdout, Effect.flushStderr] ∧
    ((Output.enter ip s).1).outputs = s.outputs ∧
    ((Output.enter ip s).1).msg_id =
      (kernel_parent_msg_id ip).getD s.msg_id := by
  rcases ip with _ | ⟨_ | ⟨cm, _ | ph⟩⟩ <;> exact ⟨rfl, rfl, rfl⟩

/-- C5: load_ipython_extension registers the ipython.widget target bound
to the class-level Widget.handle_comm_opened on the comm manager of
ip.kernel exactly when ip has a kernel attribute; when ip lacks that
attribute it returns without registering anything. -/
theorem load_ipython_extension_registers_iff_kernel_attr
    (genv : Option Shell) (ip : Shell) :
    (∀ k, ip.kernel = some k →
      load_ipython_extension genv ip =
        Except.ok (some { k with comm_manager := registered k.comm_manager }) ∧
      ("ipython.widget", Handler.widget_handle_comm_opened) ∈
        (registered k.comm_manager).targets) ∧
    (ip.kernel = none → load_ipython_extension genv ip = Except.ok none) := by
  constructor
  · intro k hk
    constructor
    · simp [load_ipython_extension, hk, register_comm_target, Except.map]
    · simp [registered]
  · intro h
    simp [load_ipython_extension, h]

/-- A sample kernel with an empty comm target registry, used to instantiate
host-dependent theorems at concrete inputs. -/
def sampleKernel : Kernel :=
  { comm_manager := { targets := [] }, parent_header := none }

theorem load_ipython_extension_registers_iff_kernel_attr_witness :
    (load_ipython_extension none { kernel := some sampleKernel } =
        Except.ok (some { sampleKernel with
          comm_manager := registered sampleKernel.comm_manager }) ∧
      ("ipython.widget", Handler.widget_handle_comm_opened) ∈
        (registered sampleKernel.comm_manager).targets) ∧
    load_ipython_extension none { kernel := none } = Except.ok none :=
  ⟨(load_ipython_extension_registers_iff_kernel_attr none
      { kernel := some sampleKernel }).1 sampleKernel rfl,
   (load_ipython_extension_registers_iff_kernel_attr none
      { kernel := none }).2 rfl⟩

/-- C9: register_comm_target called with its default None kernel argument
always fails with an AttributeError, even when a shell with a kernel is
available: the retrieved kernel goes into a dead local while the final
line dereferences the None-valued kernel parameter (comm_manager attribute
of None). -/
theorem register_comm_target_default_none_attribute_error
    (genv : Option Shell) :
    (∃ a, register_comm_target genv none =
      Except.error (PyError.attributeError a)) ∧
    (∀ shell k, genv = some shell → shell.kernel = some k →
      register_comm_target genv none =
        Except.error (PyError.attributeError "comm_manager")) := by
  constructor
  · rcases genv with _ | ⟨_ | k⟩
    · exact ⟨"kernel", rfl⟩
    · exact ⟨"kernel", rfl⟩
    · exact ⟨"comm_manager", rfl⟩
  · rintro shell k rfl hk
    simp [register_comm_target, hk]

theorem register_comm_target_default_none_attribute_error_witness :
    register_comm_target (some { kernel := some sampleKernel }) none =
      Except.error (PyError.attributeError "comm_manager") :=
  (register_comm_target_default_none_attribute_error
      (some { kernel := some sampleKernel })).2
    { kernel := some sampleKernel } sampleKernel rfl rfl

/-- C8: for every function wrapped by Output.capture (whose own host
effects never include the clear event), the wrapper with the clear flag
set (the Python default) first clears the widget buffer and only then
invokes the wrapped function: the trace splits as t1 followed by a
callFunc marker recording an empty buffer, with the host clear event in
t1; with the clear flag unset, no clear event occurs anywhere and the
invocation sees the previous buffer unchanged. -/
theorem capture_clear_enabled_clears_before_invocation
    {ρ : Type} (shell : Shell) (func : OutputState → Output.FuncRun ρ)
    (s : OutputState)
    (hf : ∀ st, Effect.hostClearOutput ∉ (func st).effs) :
    (∃ t1 t2 v s2,
      Output.capture_inner (some shell) true func s =
        Except.ok (v, s2, t1 ++ Effect.callFunc [] :: t2) ∧
      Effect.hostClearOutput ∈ t1) ∧
    (∃ v s2 tr,
      Output.capture_inner (some shell) false func s =
        Except.ok (v, s2, tr) ∧
      Effect.hostClearOutput ∉ tr ∧
      ∃ t1 t2, tr = t1 ++ Effect.callFunc s.outputs :: t2) := by
  constructor
  · rw [capture_inner_true_eq]
    cases h : (func (enteredFrom (some shell) { outputs := [], msg_id := "" })).res with
    | ok v =>
      simp only [h]
      refine ⟨(Output.flushEffects ++ [Effect.hostClearOutput] ++
          Output.flushEffects) ++ Output.flushEffects,
        (func (enteredFrom (some shell) { outputs := [], msg_id := "" })).effs ++
          Output.flushEffects,
        some v,
        { (func (enteredFrom (some shell) { outputs := [], msg_id := "" })).state
          with msg_id := "" }, ?_, ?_⟩
      · simp [List.append_assoc]
      · simp [Output.flushEffects]
    | error info =>
      simp only [h]
      refine ⟨(Output.flushEffects ++ [Effect.hostClearOutput] ++
          Output.flushEffects) ++ Output.flushEffects,
        (func (enteredFrom (some shell) { outputs := [], msg_id := "" })).effs ++
          (Effect.showtraceback info 0 :: Output.flushEffects),
        none,
        { (func (enteredFrom (some shell) { outputs := [], msg_id := "" })).state
          with msg_id := "" }, ?_, ?_⟩
      · simp [List.append_assoc]
      · simp [Output.flushEffects]
  · rw [capture_inner_false_eq]
    cases h : (func (enteredFrom (some shell) s)).res with
    | ok v =>
      simp only [h]
      refine ⟨some v,
        { (func (enteredFrom (some shell) s)).state with msg_id := "" },
        _, rfl, ?_, Output.flushEffects,
        (func (enteredFrom (some shell) s)).effs ++ Output.flushEffects, ?_⟩
      · intro hmem
        simp [Output.flushEffects] at hmem
        exact hf _ hmem
      · simp [Output.flushEffects]
    | error info =>
      simp only [h]
      refine ⟨none,
        { (func (enteredFrom (some shell) s)).state with msg_id := "" },
        _, rfl, ?_, Output.flushEffects,
        (func (enteredFrom (some shell) s)).effs ++
          (Effect.showtraceback info 0 :: Output.flushEffects), ?_⟩
      · intro hmem
        simp [Output.flushEffects] at hmem
        exact hf _ hmem
      · simp [Output.flushEffects]

/-- A function with no output and no host effects, used to instantiate the
capture clear theorem at a concrete input. -/
def pureFunc : OutputState → Output.FuncRun Nat :=
  fun st => { res := Except.ok 7, state := st, effs := [] }

/-- A one-record buffer used to instantiate the capture clear theorem. -/
def sampleState : OutputState :=
  { outputs := [[("k", PyVal.str "v")]], msg_id := "m" }

theorem capture_clear_enabled_clears_before_invocation_witness :
    (∃ t1 t2 v s2,
      Output.capture_inner (some { kernel := none }) true pureFunc sampleState =
        Except.ok (v, s2, t1 ++ Effect.callFunc [] :: t2) ∧
      Effect.hostClearOutput ∈ t1) ∧
    (∃ v s2 tr,
      Output.capture_inner (some { kernel := none }) false pureFunc sampleState =
        Except.ok (v, s2, tr) ∧
      Effect.hostClearOutput ∉ tr ∧
      ∃ t1 t2, tr = t1 ++ Effect.callFunc sampleState.outputs :: t2) :=
  capture_clear_enabled_clears_before_invocation { kernel := none } pureFunc
    sampleState (fun _ => List.not_mem_nil _)

/-- C10: for every function wrapped by Output.capture that raises during an
invocation, the wrapper returns None (not the function result, and without
propagating the exception): the capture scope exit handler renders the
traceback and suppresses the exception. -/
theorem capture_wrapper_returns_none_when_func_raises
    {ρ : Type} (shell : Shell) (clear : Bool)
    (func : OutputState → Output.FuncRun ρ) (e : ExcInfo) (s : OutputState)
    (h : ∀ st, (func st).res = Except.error e) :
    ∃ s2 tr,
      Output.capture_inner (some shell) clear func s =
        Except.ok (none, s2, tr) ∧
      Effect.showtraceback e 0 ∈ tr := by
  cases clear with
  | true =>
    rw [capture_inner_true_eq]
    simp only [h]
    exact ⟨_, _, rfl, by simp [Output.flushEffects]⟩
  | false =>
    rw [capture_inner_false_eq]
    simp only [h]
    exact ⟨_, _, rfl, by simp [Output.flushEffects]⟩

/-- A function that always raises a ValueError, used to instantiate the
capture raise theorem at a concrete input. -/
def raisingFunc : OutputState → Output.FuncRun Nat :=
  fun st =>
    { res := Except.error ⟨"ValueError", "boom", 0⟩
      state := st
      effs := [] }

theorem capture_wrapper_returns_none_when_func_raises_witness :
    ∃ s2 tr,
      Output.capture_inner (some { kernel := none }) true raisingFunc
        { outputs := [], msg_id := "" } =
        Except.ok (none, s2, tr) ∧
      Effect.showtraceback ⟨"ValueError", "boom", 0⟩ 0 ∈ tr :=
  capture_wrapper_returns_none_when_func_raises { kernel := none } true
    raisingFunc ⟨"ValueError", "boom", 0⟩ { outputs := [], msg_id := "" }
    (fun _ => rfl)
